import Mathlib

/-!
Verification development for the OASIS business-simulator message-analysis and
response-generation pipeline.

The definitions below are a shallow embedding of the Python source:
  - backend/ai_service/llm_analyzer.py      (pydantic models, deterministic analyzer)
  - backend/ai_service/structured_agent.py  (response synthesis, per-turn orchestration)
  - backend/ai_service/conversation_memory.py (accumulated conversation insights)
  - backend/simulations/views.py            (send_message entry point)

Conventions:
  - Python strings are Lean `String`; `needle in haystack` is substring containment
    over code points.  Python `str.lower()` is modelled as ASCII lowercasing
    (`Char.toLower`); every string literal occurring in the source keyword sets is
    already lower case except for plain ASCII letters, so the model agrees with
    CPython on all inputs used in theorems.
  - pydantic model construction validates its `Field`/`Literal` constraints; we
    model construction of a constrained model as a `validate` function returning
    `Option`: `none` is a raised `ValidationError`.
  - Python `int` values that are non-negative in every code path (lengths,
    percentages, confidence levels) are modelled as `Nat`; `float` confidences and
    likelihoods as `Rat` (the source constants 0.85, 0.8 and 0.5 are written
    `mkRat 85 100`, `mkRat 8 10`, `mkRat 5 10`, their exact values).
-/

/-- Python `str.lower()` restricted to ASCII case mapping. -/
def pyLower (s : String) : String :=
  String.mk (s.data.map Char.toLower)

/-- Whether `needle` occurs as a contiguous sublist of the second argument. -/
def listInfix (needle : List Char) : List Char → Bool
  | [] => needle.isEmpty
  | c :: cs => needle.isPrefixOf (c :: cs) || listInfix needle cs

/-- Python `needle in haystack` on strings: substring containment. -/
def strContains (haystack needle : String) : Bool :=
  listInfix needle.data haystack.data

/-- Python `any(word in msg for word in words)`. -/
def containsAny (msg : String) (words : List String) : Bool :=
  words.any (fun w => strContains msg w)

/-- Python `str.strip()` (whitespace at both ends). -/
def pyStrip (s : String) : String :=
  String.mk (((s.data.dropWhile Char.isWhitespace).reverse.dropWhile Char.isWhitespace).reverse)

/-- Python `s[:n]` on strings (code points). -/
def pyTake (s : String) (n : Nat) : String :=
  String.mk (s.data.take n)

/-- Python `s[n:]` on strings (code points). -/
def pyDrop (s : String) (n : Nat) : String :=
  String.mk (s.data.drop n)

/-- Python `", ".join(l)` etc. -/
def pyJoin (sep : String) (l : List String) : String :=
  String.intercalate sep l

namespace LlmAnalyzer

/-- The `Literal` set of `EmotionAnalysis.primary_emotion` (llm_analyzer.py lines 11-13). -/
def emotionLiterals : List String :=
  ["positive", "negative", "neutral", "frustrated", "confident", "hesitant",
   "aggressive", "collaborative"]

/-- The `Literal` set of `BusinessImpactAssessment.impact_level` and
`strategic_importance` (llm_analyzer.py lines 51, 57). -/
def impactLiterals : List String := ["low", "medium", "high", "critical"]

/-- The `Literal` set of `BusinessImpactAssessment.financial_impact` (line 54). -/
def financialImpactLiterals : List String := ["none", "low", "medium", "high", "critical"]

/-- The `Literal` set of `BusinessImpactAssessment.urgency_level` (line 60). -/
def urgencyLiterals : List String := ["low", "medium", "high", "immediate"]

/-- pydantic model `EmotionAnalysis` (llm_analyzer.py lines 9-24). -/
structure EmotionAnalysis where
  primary_emotion : String
  confidence_score : Rat
  emotional_indicators : List String
  tone_shift : Option String := none
deriving DecidableEq

/-- The `Field`/`Literal` constraints pydantic checks when an `EmotionAnalysis`
is constructed. -/
def EmotionAnalysis.IsValid (e : EmotionAnalysis) : Prop :=
  e.primary_emotion ∈ emotionLiterals ∧ 0 ≤ e.confidence_score ∧ e.confidence_score ≤ 1

instance (e : EmotionAnalysis) : Decidable e.IsValid := by
  unfold EmotionAnalysis.IsValid; infer_instance

/-- pydantic model `KeyPointsExtraction` (llm_analyzer.py lines 27-46): six
unconstrained string lists. -/
structure KeyPointsExtraction where
  main_topics : List String
  financial_mentions : List String
  strategic_concepts : List String
  stakeholders_mentioned : List String
  action_items : List String
  concerns_raised : List String
deriving DecidableEq

/-- pydantic model `BusinessImpactAssessment` (llm_analyzer.py lines 49-68). -/
structure BusinessImpactAssessment where
  impact_level : String
  financial_impact : String
  strategic_importance : String
  urgency_level : String
  risk_factors : List String
  opportunities : List String
deriving DecidableEq

/-- The `Literal` constraints of `BusinessImpactAssessment`. -/
def BusinessImpactAssessment.IsValid (b : BusinessImpactAssessment) : Prop :=
  b.impact_level ∈ impactLiterals ∧ b.financial_impact ∈ financialImpactLiterals ∧
    b.strategic_importance ∈ impactLiterals ∧ b.urgency_level ∈ urgencyLiterals

instance (b : BusinessImpactAssessment) : Decidable b.IsValid := by
  unfold BusinessImpactAssessment.IsValid; infer_instance

/-- pydantic model `ObjectiveProgress` (llm_analyzer.py lines 71-90). -/
structure ObjectiveProgress where
  objective_text : String
  completion_percentage : Nat
  is_fully_completed : Bool
  evidence_for_completion : List String
  remaining_requirements : List String
  confidence_in_assessment : Rat
deriving DecidableEq

/-- The `Field` bounds pydantic checks on `ObjectiveProgress` (`ge=0, le=100` on the
percentage, `ge=0.0, le=1.0` on the confidence). -/
def ObjectiveProgress.IsValid (o : ObjectiveProgress) : Prop :=
  o.completion_percentage ≤ 100 ∧ 0 ≤ o.confidence_in_assessment ∧ o.confidence_in_assessment ≤ 1

instance (o : ObjectiveProgress) : Decidable o.IsValid := by
  unfold ObjectiveProgress.IsValid; infer_instance

/-- pydantic model `EndConditionAnalysis` (llm_analyzer.py lines 93-105). -/
structure EndConditionAnalysis where
  condition_text : String
  is_met : Bool
  likelihood_of_meeting : Rat
  evidence : List String
  next_steps_needed : List String
deriving DecidableEq

/-- The `Field` bounds of `EndConditionAnalysis` (`ge=0.0, le=1.0` on the likelihood). -/
def EndConditionAnalysis.IsValid (c : EndConditionAnalysis) : Prop :=
  0 ≤ c.likelihood_of_meeting ∧ c.likelihood_of_meeting ≤ 1

instance (c : EndConditionAnalysis) : Decidable c.IsValid := by
  unfold EndConditionAnalysis.IsValid; infer_instance

/-- pydantic model `ComprehensiveMessageAnalysis` (llm_analyzer.py lines 109-121). -/
structure ComprehensiveMessageAnalysis where
  emotion_analysis : EmotionAnalysis
  key_points : KeyPointsExtraction
  business_impact : BusinessImpactAssessment
  objective_progress : List ObjectiveProgress
  end_condition_analysis : List EndConditionAnalysis
  conversation_summary : String
  recommended_ai_approach : String
deriving DecidableEq

/-- All constraints pydantic checks when a `ComprehensiveMessageAnalysis` is
constructed (it recursively validates the nested models). -/
def ComprehensiveMessageAnalysis.IsValid (a : ComprehensiveMessageAnalysis) : Prop :=
  a.emotion_analysis.IsValid ∧ a.business_impact.IsValid ∧
    (∀ o ∈ a.objective_progress, o.IsValid) ∧
    (∀ c ∈ a.end_condition_analysis, c.IsValid)

instance (a : ComprehensiveMessageAnalysis) : Decidable a.IsValid := by
  unfold ComprehensiveMessageAnalysis.IsValid; infer_instance

/-- pydantic construction of a `ComprehensiveMessageAnalysis`: `some` on success,
`none` when a `ValidationError` is raised. -/
def ComprehensiveMessageAnalysis.validate (a : ComprehensiveMessageAnalysis) :
    Option ComprehensiveMessageAnalysis :=
  if a.IsValid then some a else none

/-- `LLMAnalyzer._detect_emotion_intelligently` (llm_analyzer.py lines 479-493).
The `history` argument is unused by the source body. -/
def detect_emotion_intelligently (message : String) (_history : List String) : String :=
  let msgLower := pyLower message
  if containsAny msgLower ["perfecto", "excelente", "acepto", "de acuerdo"] then "positive"
  else if containsAny msgLower ["preocupa", "problema", "difícil", "no estoy seguro"] then "concerned"
  else if containsAny msgLower ["propongo", "sugiero", "creo que", "mi plan"] then "confident"
  else if containsAny msgLower ["urgente", "inmediatamente", "necesito ya"] then "frustrated"
  else "neutral"

/-- The `emotion_words` dict of `_extract_emotional_indicators` (lines 500-505),
in insertion order. -/
def emotionWords : List (String × List String) :=
  [("positive", ["perfecto", "excelente", "genial"]),
   ("concerned", ["preocupa", "problema", "difícil"]),
   ("confident", ["seguro", "confío", "creo"]),
   ("frustrated", ["urgente", "ya", "inmediatamente"])]

/-- `LLMAnalyzer._extract_emotional_indicators` (lines 495-512). -/
def extract_emotional_indicators (message : String) : List String :=
  let msgLower := pyLower message
  emotionWords.flatMap (fun p =>
    (p.2.filter (fun w => strContains msgLower w)).map
      (fun w => w ++ " (indica " ++ p.1 ++ ")"))

/-- `LLMAnalyzer._extract_main_topics_intelligently` (lines 514-531). -/
def extract_main_topics_intelligently (message : String) : List String :=
  let m := pyLower message
  let topics :=
    (if containsAny m ["usuarios", "clientes", "user"] then ["usuarios"] else []) ++
    (if containsAny m ["crecimiento", "growth", "expansión"] then ["crecimiento"] else []) ++
    (if containsAny m ["estrategia", "plan", "roadmap"] then ["estrategia"] else []) ++
    (if containsAny m ["equipo", "team", "personas"] then ["equipo"] else []) ++
    (if containsAny m ["producto", "product", "plataforma"] then ["producto"] else [])
  topics.take 5

/-- Driver for the `re.findall` models below: leftmost, non-overlapping scan.
`tryM` attempts a match at the current position; on success it returns the
matched text and the remaining input (always consuming at least one character),
so fuel equal to the input length never runs out. -/
def scanAllAux (tryM : List Char → Option (String × List Char)) :
    Nat → List Char → List String
  | 0, _ => []
  | _ + 1, [] => []
  | n + 1, c :: cs =>
    match tryM (c :: cs) with
    | some (m, rest) => m :: scanAllAux tryM n rest
    | none => scanAllAux tryM n cs

/-- Run a matcher over a whole string, `re.findall` style. -/
def scanAll (tryM : List Char → Option (String × List Char)) (s : String) : List String :=
  scanAllAux tryM s.data.length s.data

/-- Matcher for `re.findall(r'\$\d+[KMB]?', message)` at one position. -/
def tryMoney : List Char → Option (String × List Char)
  | '$' :: rest =>
    let digits := rest.takeWhile Char.isDigit
    if digits.isEmpty then none
    else
      match rest.dropWhile Char.isDigit with
      | c :: rest2 =>
        if c = 'K' || c = 'M' || c = 'B' then
          some (String.mk ('$' :: (digits ++ [c])), rest2)
        else some (String.mk ('$' :: digits), c :: rest2)
      | [] => some (String.mk ('$' :: digits), [])
  | _ => none

/-- Matcher for `re.findall(r'\d+%', message)` at one position.  Taking the
maximal digit run is complete because a percent sign can never occur inside a
digit run, so no backtracked shorter run can succeed where the maximal one
fails. -/
def tryPercent : List Char → Option (String × List Char)
  | c :: cs =>
    if c.isDigit then
      let digits := (c :: cs).takeWhile Char.isDigit
      match (c :: cs).dropWhile Char.isDigit with
      | '%' :: rest => some (String.mk (digits ++ ['%']), rest)
      | _ => none
    else none
  | [] => none

/-- Consume `pat` (given lower case) from the input, comparing case-insensitively;
returns the remaining input on success. -/
def dropCaseless : List Char → List Char → Option (List Char)
  | [], cs => some cs
  | _ :: _, [] => none
  | p :: ps, c :: cs => if c.toLower = p then dropCaseless ps cs else none

/-- Matcher for `re.findall(r'\d+K?\s*usuarios?', message, re.IGNORECASE)` at one
position.  The greedy choices (maximal digit run, optional K, maximal
whitespace run, optional trailing s) are complete: each boundary character
class is disjoint from the next, so regex backtracking can never rescue a
failed greedy attempt at the same start position. -/
def tryUsers : List Char → Option (String × List Char)
  | c :: cs =>
    if c.isDigit then
      let digits := (c :: cs).takeWhile Char.isDigit
      let rest1 := (c :: cs).dropWhile Char.isDigit
      let kPart := match rest1 with
        | k :: _ => if k.toLower = 'k' then [k] else []
        | [] => []
      let rest2 := rest1.drop kPart.length
      let spaces := rest2.takeWhile Char.isWhitespace
      let rest3 := rest2.dropWhile Char.isWhitespace
      match dropCaseless "usuario".data rest3 with
      | none => none
      | some rest4 =>
        let core := digits ++ kPart ++ spaces ++ rest3.take 7
        match rest4 with
        | s :: r5 =>
          if s.toLower = 's' then some (String.mk (core ++ [s]), r5)
          else some (String.mk core, rest4)
        | [] => some (String.mk core, [])
    else none
  | [] => none

/-- `re.search(r'serie [ab]', message.lower())` followed by `.title()`
(llm_analyzer.py lines 553-556).  The guarding `if 'serie a' in ... or 'serie b'
in ...` of the source succeeds exactly when this search does. -/
def findSerie : List Char → Option String
  | [] => none
  | c :: cs =>
    if "serie a".data.isPrefixOf (c :: cs) then some "Serie A"
    else if "serie b".data.isPrefixOf (c :: cs) then some "Serie B"
    else findSerie cs

/-- `LLMAnalyzer._extract_financial_data_intelligently` (lines 533-558). -/
def extract_financial_data_intelligently (message : String) : List String :=
  let moneyPatterns := scanAll tryMoney message
  let percentKept := (scanAll tryPercent message).filter (fun _ =>
    containsAny (pyLower message) ["crecimiento", "growth", "mensual", "anual"])
  let userPatterns := scanAll tryUsers message
  let seriePart := match findSerie (pyLower message).data with
    | some s => [s]
    | none => []
  moneyPatterns ++ percentKept ++ userPatterns ++ seriePart

/-- The `strategic_terms` dict of `_extract_strategic_concepts_intelligently`
(lines 565-571), in insertion order. -/
def strategicTerms : List (String × List String) :=
  [("plan", ["plan", "planificación", "planning"]),
   ("expansión", ["expansión", "expansion", "crecimiento"]),
   ("partnership", ["partnership", "alianza", "colaboración"]),
   ("mercado", ["mercado", "market", "segmento"]),
   ("competencia", ["competencia", "competition", "rival"])]

/-- `LLMAnalyzer._extract_strategic_concepts_intelligently` (lines 560-577). -/
def extract_strategic_concepts_intelligently (message : String) : List String :=
  let msgLower := pyLower message
  (strategicTerms.filter (fun p => containsAny msgLower p.2)).map (·.1)

/-- The `stakeholder_terms` dict of `_extract_stakeholders_intelligently`
(lines 584-590), in insertion order. -/
def stakeholderTerms : List (String × List String) :=
  [("CEO", ["ceo", "director ejecutivo"]),
   ("equipo", ["equipo", "team"]),
   ("usuarios", ["usuarios", "clientes", "users"]),
   ("inversores", ["inversores", "investors", "vc"]),
   ("Google", ["google", "ex-google"])]

/-- `LLMAnalyzer._extract_stakeholders_intelligently` (lines 579-596). -/
def extract_stakeholders_intelligently (message : String) : List String :=
  let msgLower := pyLower message
  (stakeholderTerms.filter (fun p => containsAny msgLower p.2)).map (·.1)

/-- `LLMAnalyzer._extract_action_items_intelligently` (lines 598-610). -/
def extract_action_items_intelligently (message : String) : List String :=
  let m := pyLower message
  (if containsAny m ["necesito", "debemos", "vamos a"] then ["acción requerida"] else []) ++
  (if containsAny m ["implementar", "ejecutar", "hacer"] then ["implementación"] else []) ++
  (if containsAny m ["revisar", "analizar", "evaluar"] then ["análisis"] else [])

/-- `LLMAnalyzer._extract_concerns_intelligently` (lines 612-622). -/
def extract_concerns_intelligently (message : String) : List String :=
  let m := pyLower message
  (if containsAny m ["preocupa", "riesgo", "problema"] then ["preocupación identificada"] else []) ++
  (if containsAny m ["difícil", "complicado", "desafío"] then ["desafío mencionado"] else [])

/-- `LLMAnalyzer._assess_impact_level_intelligently` (lines 624-635); the
`scenario` argument is unused by the source body. -/
def assess_impact_level_intelligently (message : String) (_scenario : String) : String :=
  let m := pyLower message
  if containsAny m ["crítico", "urgente", "inmediatamente"] then "critical"
  else if containsAny m ["importante", "significativo", "inversión"] then "high"
  else if containsAny m ["necesario", "requerido", "plan"] then "medium"
  else "low"

/-- `LLMAnalyzer._assess_financial_impact_intelligently` (lines 637-648). -/
def assess_financial_impact_intelligently (message : String) : String :=
  let m := pyLower message
  if containsAny m ["$", "millones", "inversión", "serie a"] then "high"
  else if containsAny m ["presupuesto", "costo", "precio"] then "medium"
  else if containsAny m ["usuarios", "crecimiento"] then "low"
  else "none"

/-- `LLMAnalyzer._assess_strategic_importance_intelligently` (lines 650-661). -/
def assess_strategic_importance_intelligently (message : String) (_scenario : String) : String :=
  let m := pyLower message
  if containsAny m ["estrategia", "visión", "misión"] then "critical"
  else if containsAny m ["plan", "roadmap", "expansión"] then "high"
  else if containsAny m ["objetivo", "meta", "proyecto"] then "medium"
  else "low"

/-- `LLMAnalyzer._assess_urgency_intelligently` (lines 663-672). -/
def assess_urgency_intelligently (message : String) : String :=
  let m := pyLower message
  if containsAny m ["urgente", "inmediatamente", "ya"] then "immediate"
  else if containsAny m ["pronto", "rápido", "esta semana"] then "high"
  else "medium"

/-- `LLMAnalyzer._identify_risks_intelligently` (lines 674-686). -/
def identify_risks_intelligently (message : String) : List String :=
  let m := pyLower message
  (if containsAny m ["competencia", "rival"] then ["riesgo competitivo"] else []) ++
  (if containsAny m ["presupuesto", "costo", "dinero"] then ["riesgo financiero"] else []) ++
  (if containsAny m ["tiempo", "deadline", "plazo"] then ["riesgo temporal"] else [])

/-- `LLMAnalyzer._identify_opportunities_intelligently` (lines 688-698). -/
def identify_opportunities_intelligently (message : String) : List String :=
  let m := pyLower message
  (if containsAny m ["crecimiento", "expansión", "mercado"] then ["oportunidad de crecimiento"] else []) ++
  (if containsAny m ["partnership", "alianza", "colaboración"] then ["oportunidad de partnership"] else [])

/-- `LLMAnalyzer._calculate_progress_intelligently` (lines 701-713).  The source
computes `obj_lower = objective.lower()` and then never reads it; the unused
binding is kept here. -/
def calculate_progress_intelligently (message objective : String) : Nat :=
  let msgLower := pyLower message
  let _objLower := pyLower objective
  if containsAny msgLower ["completado", "terminado", "listo"] then 90
  else if containsAny msgLower ["progreso", "avanzando", "trabajando"] then 60
  else if containsAny msgLower ["iniciando", "empezando", "comenzando"] then 30
  else 0

/-- `LLMAnalyzer._is_objective_completed_intelligently` (lines 715-717). -/
def is_objective_completed_intelligently (message objective : String) : Bool :=
  calculate_progress_intelligently message objective ≥ 90

/-- `LLMAnalyzer._find_completion_evidence_intelligently` (lines 719-729). -/
def find_completion_evidence_intelligently (message : String) (_objective : String) :
    List String :=
  let m := pyLower message
  (if strContains m "completado" then ["usuario mencionó completado"] else []) ++
  (if strContains m "listo" then ["usuario indicó que está listo"] else [])

/-- `LLMAnalyzer._identify_remaining_requirements_intelligently` (lines 731-739). -/
def identify_remaining_requirements_intelligently (message : String) (_objective : String) :
    List String :=
  if containsAny (pyLower message) ["necesito", "falta", "requiero"] then
    ["requisitos adicionales mencionados"]
  else []

/-- `LLMAnalyzer._is_condition_met_intelligently` (lines 741-749). -/
def is_condition_met_intelligently (message condition : String) : Bool :=
  strContains (pyLower condition) "acuerdo" &&
    containsAny (pyLower message) ["acepto", "de acuerdo", "sí"]

/-- `LLMAnalyzer._recommend_approach_intelligently` (lines 751-760); the
personality dict is unused by the source body. -/
def recommend_approach_intelligently (message : String)
    (_personality : List (String × Int)) : String :=
  let m := pyLower message
  if containsAny m ["preocupa", "problema"] then
    "Abordar preocupaciones con empatía y soluciones concretas"
  else if containsAny m ["propongo", "sugiero"] then
    "Evaluar propuesta y hacer preguntas de seguimiento"
  else "Mantener conversación productiva y explorar detalles"

/-- The record built by `LLMAnalyzer._analyze_with_structured_logic`
(llm_analyzer.py lines 433-476), before pydantic validation. -/
def buildStructuredLogic (userMessage : String) (history : List String)
    (scenarioContext : String) (userObjectives endConditions : List String)
    (personality : List (String × Int)) : ComprehensiveMessageAnalysis where
  emotion_analysis :=
    { primary_emotion := detect_emotion_intelligently userMessage history
      confidence_score := mkRat 85 100
      emotional_indicators := extract_emotional_indicators userMessage }
  key_points :=
    { main_topics := extract_main_topics_intelligently userMessage
      financial_mentions := extract_financial_data_intelligently userMessage
      strategic_concepts := extract_strategic_concepts_intelligently userMessage
      stakeholders_mentioned := extract_stakeholders_intelligently userMessage
      action_items := extract_action_items_intelligently userMessage
      concerns_raised := extract_concerns_intelligently userMessage }
  business_impact :=
    { impact_level := assess_impact_level_intelligently userMessage scenarioContext
      financial_impact := assess_financial_impact_intelligently userMessage
      strategic_importance := assess_strategic_importance_intelligently userMessage scenarioContext
      urgency_level := assess_urgency_intelligently userMessage
      risk_factors := identify_risks_intelligently userMessage
      opportunities := identify_opportunities_intelligently userMessage }
  objective_progress :=
    (userObjectives.take 3).map (fun obj =>
      { objective_text := obj
        completion_percentage := calculate_progress_intelligently userMessage obj
        is_fully_completed := is_objective_completed_intelligently userMessage obj
        evidence_for_completion := find_completion_evidence_intelligently userMessage obj
        remaining_requirements := identify_remaining_requirements_intelligently userMessage obj
        confidence_in_assessment := mkRat 8 10 })
  end_condition_analysis :=
    (endConditions.take 2).map (fun cond =>
      { condition_text := cond
        is_met := is_condition_met_intelligently userMessage cond
        likelihood_of_meeting := mkRat 5 10
        evidence := []
        next_steps_needed := [] })
  conversation_summary := "Usuario expresó: " ++ pyTake userMessage 100 ++ "..."
  recommended_ai_approach := recommend_approach_intelligently userMessage personality

/-- `LLMAnalyzer._analyze_with_structured_logic` (llm_analyzer.py lines 418-476):
the deterministic fallback strategy.  Building the record runs the pydantic
constructors, so the result is `none` exactly when construction raises a
`ValidationError`. -/
def analyze_with_structured_logic (userMessage : String) (history : List String)
    (scenarioContext : String) (userObjectives endConditions : List String)
    (personality : List (String × Int)) : Option ComprehensiveMessageAnalysis :=
  (buildStructuredLogic userMessage history scenarioContext userObjectives
    endConditions personality).validate

end LlmAnalyzer

namespace StructuredAgent

open LlmAnalyzer

/-- The `Literal` set of `AIResponse.emotion` (structured_agent.py line 12). -/
def responseEmotionLiterals : List String :=
  ["positive", "neutral", "skeptical", "concerned", "encouraging"]

/-- pydantic model `AIResponse` (structured_agent.py lines 9-28). -/
structure AIResponse where
  content : String
  emotion : String
  confidence_level : Nat
  suggested_follow_up : Option String := none
  key_points : List String
  business_impact : String
deriving DecidableEq

/-- The `Field`/`Literal` constraints pydantic checks when an `AIResponse` is
constructed (`ge=1, le=10` on `confidence_level`, the two `Literal` fields). -/
def AIResponse.IsValid (r : AIResponse) : Prop :=
  r.emotion ∈ responseEmotionLiterals ∧ 1 ≤ r.confidence_level ∧ r.confidence_level ≤ 10 ∧
    r.business_impact ∈ impactLiterals

instance (r : AIResponse) : Decidable r.IsValid := by
  unfold AIResponse.IsValid; infer_instance

/-- pydantic construction of an `AIResponse`: `none` models a raised
`ValidationError`. -/
def AIResponse.validate (r : AIResponse) : Option AIResponse :=
  if r.IsValid then some r else none

/-- dataclass `SimulationState` (structured_agent.py lines 56-67), restricted to
the fields the turn pipeline reads. -/
structure SimulationState where
  messages : List String
  scenario_context : String
  user_role : String
  ai_role : String
  ai_personality : List (String × Int)
  ai_objectives : List String
  user_objectives : List String
  knowledge_base : Option String := none
deriving DecidableEq

/-- `StructuredSimulationAgent._build_executive_response` (structured_agent.py
lines 540-609).  The `user_message` parameter is unused by the source body. -/
def build_executive_response (_userMessage : String)
    (llmAnalysis : ComprehensiveMessageAnalysis) (state : SimulationState) : String :=
  let ai_role := state.ai_role
  let ai_objectives := state.ai_objectives
  let emotion := llmAnalysis.emotion_analysis.primary_emotion
  let comp1 : List String :=
    if strContains ai_role "CEO" || strContains ai_role "Founder" then
      if emotion = "frustrated" ∨ emotion = "aggressive" then
        ["Entiendo la presión. Como founder, he pasado por situaciones similares."]
      else if emotion = "confident" ∨ emotion = "positive" then
        ["Me gusta esa confianza. Es el tipo de mentalidad que necesitamos."]
      else ["Aprecio la claridad de su propuesta."]
    else if strContains ai_role "VP" || strContains ai_role "Director" then
      if emotion = "frustrated" ∨ emotion = "aggressive" then
        ["Comparto su sentido de urgencia. La situación requiere acción inmediata."]
      else if emotion = "confident" ∨ emotion = "positive" then
        ["Su aproximación es sólida. Vamos a profundizar en los detalles."]
      else ["Revisemos los elementos clave de lo que plantea."]
    else []
  let financial_mentions := llmAnalysis.key_points.financial_mentions
  let comp2 : List String :=
    if financial_mentions ≠ [] then
      let financial_context := pyJoin ", " (financial_mentions.take 2)
      if strContains (pyLower state.scenario_context) "fintech" then
        ["Respecto a " ++ financial_context ++ ", nuestros benchmarks con Nubank y Clara muestran diferentes dinámicas de valoración. Necesito entender mejor sus assumptions sobre nuestro multiple de revenue."]
      else if strContains (pyLower state.scenario_context) "crisis" then
        ["Los números que menciona (" ++ financial_context ++ ") coinciden con nuestro análisis interno. Ya tenemos un plan de recovery que nos lleva a break-even en Q2."]
      else
        ["Los aspectos financieros (" ++ financial_context ++ ") son críticos. ¿Cuál es el modelo de negocio detrás de estas proyecciones?"]
    else []
  let strategic_concepts := llmAnalysis.key_points.strategic_concepts
  let primary_objective := ai_objectives.headD ""
  let comp3 : List String :=
    if strategic_concepts ≠ [] ∧ ai_objectives ≠ [] then
      if strContains (pyLower primary_objective) "valoración" then
        ["Mi prioridad es maximizar value para todos los stakeholders. ¿Cómo estructura su oferta para alinear incentivos a largo plazo?"]
      else if strContains (pyLower primary_objective) "estabilizar" then
        ["Lo crítico es stabilizar operaciones. ¿Qué level de authority tiene para implementar las medidas que necesitamos?"]
      else if strContains (pyLower primary_objective) "cerrar" then
        ["Para cerrar esta ronda necesito ver commitment real. ¿Cuál es su timeline para due diligence y términos definitivos?"]
      else []
    else []
  let comp4 : List String :=
    if llmAnalysis.business_impact.urgency_level = "immediate" then
      ["El timing es crucial aquí. Tenemos board meeting en dos semanas y necesitamos clarity antes de esa fecha."]
    else []
  let action_items := llmAnalysis.key_points.action_items
  let comp5 : List String :=
    if action_items ≠ [] then
      ["Propongo que nos enfoquemos en " ++ pyJoin ", " (action_items.take 2) ++ ". ¿Puede comprometerse a tener esos deliverables para viernes?"]
    else []
  let response_components := comp1 ++ comp2 ++ comp3 ++ comp4 ++ comp5
  if 3 ≤ response_components.length then
    let opening := response_components.headD ""
    let business_context := pyJoin " " ((response_components.drop 1).take 2)
    let closing :=
      if 3 < response_components.length then (response_components.getLast?).getD ""
      else "¿Cuáles son los próximos pasos concretos?"
    opening ++ " " ++ business_context ++ " " ++ closing
  else if response_components ≠ [] then pyJoin " " response_components
  else "Necesito más detalles para evaluar esta propuesta adecuadamente."

/-- `StructuredSimulationAgent._generate_strategic_follow_up` (structured_agent.py
lines 611-627). -/
def generate_strategic_follow_up (llmAnalysis : ComprehensiveMessageAnalysis)
    (state : SimulationState) : String :=
  let ai_role := state.ai_role
  if strContains ai_role "CEO" || strContains ai_role "Founder" then
    if llmAnalysis.key_points.financial_mentions ≠ [] then
      "¿Podría compartir su modelo financiero detallado y assumptions de crecimiento?"
    else "¿Cuál es su vision a 3 años para esta partnership/acquisition?"
  else if strContains ai_role "VP" || strContains ai_role "Director" then
    if llmAnalysis.business_impact.impact_level = "critical" then
      "¿Qué recursos necesita para implementar esto inmediatamente?"
    else "¿Cómo mediremos el éxito de esta iniciativa?"
  else "¿Cuáles son los próximos pasos específicos que propone?"

/-- The `alignment_analysis` dict of `_analyze_objective_alignment`
(structured_agent.py lines 635-641). -/
structure ObjectiveAlignment where
  conflicts : List String
  alignments : List String
  ai_defensive_points : List String
  ai_leverage_points : List String
  negotiation_strategy : String
deriving DecidableEq

/-- The first match of `re.findall(r'\$(\d+)M|\$(\d+)K|(\d+)%', mention)`
(structured_agent.py line 653): the source keeps only `number_match[0]`, the
tuple of the first match, whose single non-empty group is the digit string
returned here.  Failed positions advance one character, as the regex engine
does. -/
def firstFinancialNumber : List Char → Option String
  | [] => none
  | c :: cs =>
    if c = '$' then
      let digits := cs.takeWhile Char.isDigit
      if digits.isEmpty then firstFinancialNumber cs
      else
        match cs.dropWhile Char.isDigit with
        | 'M' :: _ => some (String.mk digits)
        | 'K' :: _ => some (String.mk digits)
        | _ => firstFinancialNumber cs
    else if c.isDigit then
      match (c :: cs).dropWhile Char.isDigit with
      | '%' :: _ => some (String.mk ((c :: cs).takeWhile Char.isDigit))
      | _ => firstFinancialNumber cs
    else firstFinancialNumber cs

/-- Python `int(...)` on a non-empty decimal digit string. -/
def digitsToNat (s : String) : Nat :=
  s.data.foldl (fun acc c => acc * 10 + (c.toNat - '0'.toNat)) 0

/-- `StructuredSimulationAgent._analyze_objective_alignment` (structured_agent.py
lines 629-670).  The `user_message` parameter is unused by the source body. -/
def analyze_objective_alignment (_userMessage : String)
    (llmAnalysis : ComprehensiveMessageAnalysis) (state : SimulationState) :
    ObjectiveAlignment :=
  let base : ObjectiveAlignment :=
    { conflicts := [], alignments := [], ai_defensive_points := [],
      ai_leverage_points := [], negotiation_strategy := "neutral" }
  if state.ai_objectives ≠ [] ∧ state.user_objectives ≠ [] then
    if strContains (pyLower state.scenario_context) "fintech" ∧
        strContains (pyLower (pyJoin " " state.ai_objectives)) "valoración" then
      let financial_mentions := llmAnalysis.key_points.financial_mentions
      if financial_mentions ≠ [] then
        let numbers := financial_mentions.filterMap (fun m => firstFinancialNumber m.data)
        if numbers.any (fun n => 20 < digitsToNat n) then
          { conflicts := ["Usuario ofrece valoración alta vs AI quiere maximizar value"],
            alignments := [],
            ai_defensive_points := ["Nuestras métricas y benchmarks de mercado"],
            ai_leverage_points := [],
            negotiation_strategy := "protective_with_data" }
        else base
      else base
    else if strContains (pyLower state.scenario_context) "crisis" ∧
        strContains (pyLower (pyJoin " " state.ai_objectives)) "estabilizar" then
      if llmAnalysis.business_impact.urgency_level = "immediate" then
        { conflicts := [], alignments := ["Ambos reconocen urgencia de la situación"],
          ai_defensive_points := [],
          ai_leverage_points := ["Experiencia en crisis management"],
          negotiation_strategy := "collaborative_urgent" }
      else base
    else base
  else base

/-- `StructuredSimulationAgent._apply_objective_driven_strategy`
(structured_agent.py lines 672-697). -/
def apply_objective_driven_strategy (baseResponse : String)
    (objectiveAnalysis : ObjectiveAlignment) (_state : SimulationState) : String :=
  let strategy := objectiveAnalysis.negotiation_strategy
  let r1 :=
    if strategy = "protective_with_data" then
      let data_qualifier := "Basándome en nuestro track record y benchmarks de mercado, "
      if ¬ ((pyTake data_qualifier 20).data.isPrefixOf baseResponse.data = true) then
        data_qualifier ++ pyLower baseResponse
      else baseResponse
    else if strategy = "collaborative_urgent" then
      if ¬ (strContains (pyLower baseResponse) "urgencia" = true) then
        "Compartimos esa urgencia. " ++ baseResponse
      else baseResponse
    else baseResponse
  if objectiveAnalysis.conflicts ≠ [] ∧ objectiveAnalysis.ai_leverage_points ≠ [] then
    r1 ++ " Mi experiencia en " ++ objectiveAnalysis.ai_leverage_points.headD "" ++
      " me dice que necesitamos ser estratégicos aquí."
  else r1

/-- `StructuredSimulationAgent._generate_contextual_response` (structured_agent.py
lines 484-538).  Constructing the final `AIResponse` runs pydantic validation;
`none` models the raised `ValidationError`. -/
def generate_contextual_response (userMessage : String)
    (llmAnalysis : ComprehensiveMessageAnalysis) (state : SimulationState) :
    Option AIResponse :=
  let base_response := llmAnalysis.recommended_ai_approach
  let is_executive_level : Bool :=
    !(base_response == "") && decide (80 < base_response.length) &&
      containsAny (pyLower base_response)
        ["valoración", "revenue", "board", "stakeholder", "pipeline", "metrics",
         "due diligence", "growth", "market", "capital", "competition", "strategy"] &&
      !(containsAny (pyLower base_response)
        ["mantener conversación", "elaborar más", "aspectos específicos", "recomiendo que"])
  let response_content :=
    if is_executive_level then base_response
    else build_executive_response userMessage llmAnalysis state
  let objective_analysis := analyze_objective_alignment userMessage llmAnalysis state
  let strategic_response :=
    apply_objective_driven_strategy response_content objective_analysis state
  AIResponse.validate
    { content := strategic_response
      emotion := llmAnalysis.emotion_analysis.primary_emotion
      confidence_level := min 95 (70 + strategic_response.length / 20)
      key_points := llmAnalysis.key_points.main_topics
      business_impact := llmAnalysis.business_impact.impact_level
      suggested_follow_up := some (generate_strategic_follow_up llmAnalysis state) }

/-- The dict returned by `ConversationMemoryService.get_conversation_context`
(conversation_memory.py lines 170-182), restricted to the keys the agent reads. -/
structure ConversationContext where
  financial_data_mentioned : List String
  conversation_phase : String
  concerns_raised : List String
  business_impact_level : String
deriving DecidableEq

/-- `StructuredSimulationAgent._enhance_with_conversation_context`
(structured_agent.py lines 809-829).  pydantic does not re-validate attribute
assignment by default, so the content updates are plain record updates. -/
def enhance_with_conversation_context (response : AIResponse)
    (context : ConversationContext) (llmAnalysis : ComprehensiveMessageAnalysis) :
    AIResponse :=
  let r1 :=
    if context.financial_data_mentioned ≠ [] ∧
        llmAnalysis.key_points.financial_mentions ≠ [] then
      { response with content := (response.content ++
          " Considerando que anteriormente discutimos " ++
          pyJoin ", " (context.financial_data_mentioned.take 2) ++ ", ") }
    else response
  let r2 :=
    if context.conversation_phase = "negotiation" then
      { r1 with content := r1.content ++ " Estamos en una fase crítica de la negociación." }
    else if context.conversation_phase = "closing" then
      { r1 with content := r1.content ++ " Nos acercamos a las decisiones finales." }
    else r1
  if 2 < context.concerns_raised.length then
    { r2 with content := (r2.content ++
        " Veo que hemos identificado varias preocupaciones importantes que debemos resolver.") }
  else r2

/-- The `emotion_mapping` dict of `_enhance_response_with_llm_analysis`
(structured_agent.py lines 848-856). -/
def emotionMapping : List (String × String) :=
  [("positive", "encouraging"), ("negative", "concerned"), ("frustrated", "concerned"),
   ("confident", "neutral"), ("hesitant", "encouraging"), ("aggressive", "skeptical"),
   ("collaborative", "encouraging")]

/-- `StructuredSimulationAgent._enhance_response_with_llm_analysis`
(structured_agent.py lines 831-862). -/
def enhance_response_with_llm_analysis (baseResponse : AIResponse)
    (llmAnalysis : ComprehensiveMessageAnalysis) : AIResponse :=
  let r1 :=
    if llmAnalysis.business_impact.urgency_level = "immediate" then
      { baseResponse with content := ("Entiendo la urgencia de la situación. " ++
          baseResponse.content) }
    else baseResponse
  let r2 :=
    if llmAnalysis.key_points.financial_mentions ≠ [] then
      { r1 with content := (r1.content ++
          " Respecto a los aspectos financieros que mencionas (" ++
          pyJoin ", " llmAnalysis.key_points.financial_mentions ++ "), necesito más detalles.") }
    else r1
  let r3 :=
    if llmAnalysis.key_points.concerns_raised ≠ [] then
      { r2 with content := (r2.content ++
          " Veo que tienes algunas preocupaciones válidas que debemos abordar.") }
    else r2
  match emotionMapping.find? (fun p => p.1 = llmAnalysis.emotion_analysis.primary_emotion) with
  | some p => { r3 with emotion := p.2 }
  | none => r3

/-- Errors a turn can surface: `emptyMessage` is the 400 response of
`send_message`; the others model exceptions raised by
`StructuredSimulationAgent.process_message`. -/
inductive TurnError where
  | emptyMessage
  | noUserMessage
  | analysisFailed (msg : String)
  | responseGenerationFailed
deriving DecidableEq

/-- The result dict of `process_message` (structured_agent.py lines 469-479);
`objective_progress` lists the keys of the dict, whose values are all `True`. -/
structure ProcessResult where
  response : String
  emotion : String
  confidence_level : Nat
  key_points : List String
  business_impact : String
  suggested_follow_up : Option String
  objective_progress : List String
deriving DecidableEq

/-- The call `llm_analyzer.analyze_message_comprehensive(..., ai_role=...,
ai_objectives=..., knowledge_base=...)` at structured_agent.py lines 391-401.
`LLMAnalyzer.analyze_message_comprehensive` (llm_analyzer.py lines 306-315)
declares no parameters named `ai_role`, `ai_objectives` or `knowledge_base`,
so in Python the call raises `TypeError` before any analysis runs; the
enclosing `except` block re-raises it as `Exception("LLM analysis failed: ...")`. -/
def analyzeMessageComprehensiveCall (_state : SimulationState) :
    Except String LlmAnalyzer.ComprehensiveMessageAnalysis :=
  Except.error
    "analyze_message_comprehensive() got an unexpected keyword argument ai_role"

/-- `StructuredSimulationAgent.process_message` (structured_agent.py lines
361-482): find the last user turn, run the analyzer call, synthesize and
enhance the response, and assemble the result dict.  `Except.error` models a
raised exception. -/
def process_message (state : SimulationState)
    (conversationContext : Option ConversationContext) : Except TurnError ProcessResult :=
  let lastUserMessage :=
    match state.messages.reverse.find? (fun m => "User:".data.isPrefixOf m.data) with
    | some m => pyDrop m 5
    | none => ""
  if lastUserMessage = "" then Except.error TurnError.noUserMessage
  else
    match analyzeMessageComprehensiveCall state with
    | Except.error e => Except.error (TurnError.analysisFailed e)
    | Except.ok llmAnalysis =>
      match generate_contextual_response lastUserMessage llmAnalysis state with
      | none => Except.error TurnError.responseGenerationFailed
      | some contextualResponse =>
        let r1 := match conversationContext with
          | some ctx => enhance_with_conversation_context contextualResponse ctx llmAnalysis
          | none => contextualResponse
        let enhanced := enhance_response_with_llm_analysis r1 llmAnalysis
        Except.ok
          { response := enhanced.content
            emotion := llmAnalysis.emotion_analysis.primary_emotion
            confidence_level := enhanced.confidence_level
            key_points := llmAnalysis.key_points.main_topics
            business_impact := llmAnalysis.business_impact.impact_level
            suggested_follow_up := enhanced.suggested_follow_up
            objective_progress :=
              (llmAnalysis.objective_progress.filter (·.is_fully_completed)).map
                (·.objective_text) }

/-- `SimulationViewSet.send_message` (simulations/views.py lines 281-463)
restricted to the turn pipeline: validate the stripped content (the 400
response for missing content is `emptyMessage`), append the user turn to the
history, and run `process_message`; any exception it raises becomes the 500
response. -/
def processTurn (state : SimulationState) (content : String)
    (conversationContext : Option ConversationContext) : Except TurnError ProcessResult :=
  let trimmed := pyStrip content
  if trimmed = "" then Except.error TurnError.emptyMessage
  else
    process_message
      { state with messages := state.messages ++ ["User: " ++ trimmed] }
      conversationContext

end StructuredAgent

namespace ConversationMemory

/-- The per-user-message fields `update_conversation_insights` reads from a
stored `Message` row (simulations/models.py lines 37-49) after
`store_message_insights` has populated it.  The empty string models a
NULL/blank char field. -/
structure MessageRecord where
  key_points : List String
  financial_mentions : List String
  strategic_concepts : List String
  stakeholders_mentioned : List String
  action_items : List String
  concerns_raised : List String
  business_impact_level : String
  urgency_level : String
  emotion : String
deriving DecidableEq

/-- The fields of the `ConversationInsights` row (simulations/models.py lines
59-85) maintained by `update_conversation_insights`. -/
structure Insights where
  all_key_points : List String
  all_financial_mentions : List String
  all_strategic_concepts : List String
  all_stakeholders : List String
  all_action_items : List String
  all_concerns : List String
  highest_impact_level : String
  peak_urgency_level : String
  dominant_emotions : List String
  conversation_phases : List String
  conversation_summary : String
deriving DecidableEq

/-- A freshly created insights row: `get_or_create` defaults
(conversation_memory.py lines 71-78) plus the model field defaults
(simulations/models.py lines 64-81). -/
def Insights.initial : Insights where
  all_key_points := []
  all_financial_mentions := []
  all_strategic_concepts := []
  all_stakeholders := []
  all_action_items := []
  all_concerns := []
  highest_impact_level := "medium"
  peak_urgency_level := "medium"
  dominant_emotions := []
  conversation_phases := []
  conversation_summary := "Conversación iniciada"

/-- The `impact_priority` dict (conversation_memory.py line 122). -/
def impact_priority : List (String × Nat) :=
  [("critical", 4), ("high", 3), ("medium", 2), ("low", 1)]

/-- The `urgency_priority` dict (conversation_memory.py line 127). -/
def urgency_priority : List (String × Nat) :=
  [("immediate", 4), ("high", 3), ("medium", 2), ("low", 1)]

/-- Python `priority.get(x, 0)`. -/
def priorityGet (priority : List (String × Nat)) (x : String) : Nat :=
  ((priority.find? (fun p => p.1 = x)).map (·.2)).getD 0

/-- Python `max(x :: xs, key=key)`: the first element with the greatest key
(iteration replaces the current best only on a strictly greater key). -/
def pyMaxByKey (key : String → Nat) (x : String) (xs : List String) : String :=
  xs.foldl (fun best y => if key best < key y then y else best) x

/-- Lines 121-130 of `update_conversation_insights` as a function: recompute
the running maximum over the collected levels, keeping the current field value
when no level was collected. -/
def computeHighest (priority : List (String × Nat)) (current : String) :
    List String → String
  | [] => current
  | x :: xs => pyMaxByKey (priorityGet priority) x xs

/-- Python `list(set(xs))`.  CPython leaves the order unspecified; the model
fixes first-occurrence order.  Every property proved about the accumulated
lists is order-insensitive (element sets and distinct-element counts). -/
def pySetList (xs : List String) : List String := xs.dedup

/-- The `emotion_counts` dict of `update_conversation_insights` (lines
133-135): keys in first-seen order, each with its occurrence count. -/
def emotionCounts (emotions : List String) : List (String × Nat) :=
  emotions.foldl (fun acc e =>
    if acc.any (fun p => p.1 = e) then
      acc.map (fun p => if p.1 = e then (p.1, p.2 + 1) else p)
    else acc ++ [(e, 1)]) []

/-- Stable insertion before the first entry with a count not above the new one;
folding from the right gives exactly Python's stable descending sort. -/
def insertByCountDesc (p : String × Nat) : List (String × Nat) → List (String × Nat)
  | [] => [p]
  | q :: qs => if q.2 ≤ p.2 then p :: q :: qs else q :: insertByCountDesc p qs

/-- `sorted(emotion_counts.items(), key=lambda x: x[1], reverse=True)[:3]`
followed by keeping the emotion names (lines 138-139). -/
def dominantEmotionsOf (emotions : List String) : List String :=
  ((((emotionCounts emotions).foldr insertByCountDesc []).take 3).map (·.1))

/-- The phase computation of `update_conversation_insights` (lines 142-150). -/
def phaseOf (messageCount : Nat) : String :=
  if messageCount ≤ 2 then "opening"
  else if messageCount ≤ 5 then "development"
  else if messageCount ≤ 8 then "negotiation"
  else "closing"

/-- The phase-list update of one call (line 152): append the computed phase
only when it is not already present. -/
def appendPhase (phases : List String) (messageCount : Nat) : List String :=
  if phaseOf messageCount ∈ phases then phases else phases ++ [phaseOf messageCount]

/-- `ConversationMemoryService.update_conversation_insights`
(conversation_memory.py lines 67-160).  `userMessages` models
`simulation.messages.filter(sender='user').exclude(llm_analysis={})` in
timestamp order; with no such messages the early return keeps `insights`
unchanged. -/
def update_conversation_insights (insights : Insights)
    (userMessages : List MessageRecord) : Insights :=
  if userMessages = [] then insights
  else
    let all_key_points := userMessages.flatMap (·.key_points)
    let all_financial := userMessages.flatMap (·.financial_mentions)
    let all_strategic := userMessages.flatMap (·.strategic_concepts)
    let all_stakeholders := userMessages.flatMap (·.stakeholders_mentioned)
    let all_actions := userMessages.flatMap (·.action_items)
    let all_concerns := userMessages.flatMap (·.concerns_raised)
    let all_emotions := (userMessages.filter (fun m => m.emotion ≠ "")).map (·.emotion)
    let impact_levels :=
      (userMessages.filter (fun m => m.business_impact_level ≠ "")).map
        (·.business_impact_level)
    let urgency_levels :=
      (userMessages.filter (fun m => m.urgency_level ≠ "")).map (·.urgency_level)
    let highest_impact :=
      computeHighest impact_priority insights.highest_impact_level impact_levels
    let peak_urgency :=
      computeHighest urgency_priority insights.peak_urgency_level urgency_levels
    let message_count := userMessages.length
    let phase := phaseOf message_count
    let new_key_points := pySetList all_key_points
    { all_key_points := new_key_points
      all_financial_mentions := pySetList all_financial
      all_strategic_concepts := pySetList all_strategic
      all_stakeholders := pySetList all_stakeholders
      all_action_items := pySetList all_actions
      all_concerns := pySetList all_concerns
      highest_impact_level := highest_impact
      peak_urgency_level := peak_urgency
      dominant_emotions := dominantEmotionsOf all_emotions
      conversation_phases := appendPhase insights.conversation_phases message_count
      conversation_summary :=
        ("Conversación en fase " ++ phase ++ " con " ++ toString message_count ++
          " intercambios. Temas principales: " ++ pyJoin ", " (new_key_points.take 3) ++
          ". Impacto: " ++ highest_impact ++ ".") }

/-- The phase history after `n` per-turn updates: the update after turn `k`
sees `k` stored user messages, starting from the empty default list. -/
def phaseHistoryAfter : Nat → List String
  | 0 => []
  | n + 1 => appendPhase (phaseHistoryAfter n) (n + 1)

/-- Position of a phase label in the opening → closing progression. -/
def phaseIdx (phase : String) : Nat :=
  priorityGet [("opening", 0), ("development", 1), ("negotiation", 2), ("closing", 3)] phase

end ConversationMemory

section Fixtures

/-- The Scenario B message of the spec. -/
def scenarioBMessage : String := "Estoy de acuerdo, acepto los términos"

/-- A Scenario C message: contains the dollar amount and the funding-round label. -/
def scenarioCMessage : String := "Buscamos $5M en nuestra Serie A"

/-- The default personality sliders used by `send_message`
(simulations/views.py lines 362-367). -/
def demoPersonality : List (String × Int) :=
  [("analytical", 50), ("patience", 50), ("aggression", 30), ("flexibility", 50)]

/-- A concrete session state for evaluating the pipeline. -/
def demoState : StructuredAgent.SimulationState where
  messages := []
  scenario_context := "Negociación de inversión"
  user_role := "Founder"
  ai_role := "Inversionista"
  ai_personality := demoPersonality
  ai_objectives := ["Cerrar un buen acuerdo"]
  user_objectives := ["Cerrar acuerdo"]
  knowledge_base := none

/-- Whether an `Except` value is a success. -/
def exceptOk {ε α : Type} : Except ε α → Bool
  | Except.ok _ => true
  | Except.error _ => false

instance {ε α : Type} [DecidableEq ε] [DecidableEq α] : DecidableEq (Except ε α) :=
  fun x y =>
    match x, y with
    | Except.ok a, Except.ok b => decidable_of_iff (a = b) (by simp)
    | Except.error e, Except.error f => decidable_of_iff (e = f) (by simp)
    | Except.ok _, Except.error _ => isFalse (fun hc => Except.noConfusion hc)
    | Except.error _, Except.ok _ => isFalse (fun hc => Except.noConfusion hc)

end Fixtures

section SmokeChecks

example : strContains "estoy de acuerdo" "acuerdo" = true := by decide

example : pyLower "Estoy DE Acuerdo" = "estoy de acuerdo" := by decide

example : pyStrip "  hola  " = "hola" := by decide

example :
    LlmAnalyzer.extract_financial_data_intelligently scenarioCMessage
      = ["$5M", "Serie A"] := by decide

end SmokeChecks

/-- C2: the spec asserts the deterministic fallback analyzer is total and never
raises for any string input.  The code violates this: on the message
"problema", `_detect_emotion_intelligently` returns "concerned", which is not
in the declared `Literal` set of `EmotionAnalysis.primary_emotion`, so
pydantic raises a `ValidationError` (modelled as `none`) inside the fallback
strategy itself. -/
theorem fallback_raises_on_problema :
    LlmAnalyzer.detect_emotion_intelligently "problema" [] = "concerned" ∧
    LlmAnalyzer.emotionLiterals.contains "concerned" = false ∧
    LlmAnalyzer.analyze_with_structured_logic "problema" [] "" [] [] [] = none := by
  decide

/-- C5 counterexample: on the Scenario B message with the single user objective
"Cerrar acuerdo", the deterministic strategy does not yield completion 90 /
fully-completed for the first objective-progress entry. -/
theorem scenarioB_claim_false :
    ¬ (((LlmAnalyzer.analyze_with_structured_logic scenarioBMessage [] ""
          ["Cerrar acuerdo"] [] demoPersonality).bind
        (fun a => a.objective_progress.head?)).map
          (fun o => (o.completion_percentage, o.is_fully_completed)) = some (90, true)) := by
  decide

/-- C5 amended: on the Scenario B message the deterministic strategy yields
`completionPercentage = 0` and `isFullyCompleted = false` for the first
objective (the completion tier is keyed on "completado"/"terminado"/"listo",
none of which occurs in the message). -/
theorem scenarioB_deterministic_progress :
    ((LlmAnalyzer.analyze_with_structured_logic scenarioBMessage [] ""
        ["Cerrar acuerdo"] [] demoPersonality).bind
      (fun a => a.objective_progress.head?)).map
        (fun o => (o.completion_percentage, o.is_fully_completed)) = some (0, false) := by
  decide

/-- C8 (Scenario C): with the generative capability disabled, the deterministic
strategy on a message containing "$5M" and "Serie A" extracts both the dollar
amount and the funding-round label into `financial_mentions`, and assesses
`financial_impact` in {medium, high}. -/
theorem scenarioC_financial_extraction :
    (LlmAnalyzer.analyze_with_structured_logic scenarioCMessage [] "" [] []
        demoPersonality).map
      (fun a => (a.key_points.financial_mentions.contains "$5M",
                 a.key_points.financial_mentions.contains "Serie A",
                 decide (a.business_impact.financial_impact = "medium" ∨
                   a.business_impact.financial_impact = "high")))
      = some (true, true, true) := by
  decide

/-- The computed synthesizer confidence `min(95, 70 + len//20)` can never meet
the declared `le=10` bound. -/
lemma confidence_floor (n : Nat) : ¬ (min 95 (70 + n / 20) ≤ 10) := by
  have h : 70 ≤ min 95 (70 + n / 20) := le_min (by omega) (by omega)
  omega

/-- An `AIResponse` whose confidence violates the `le=10` bound never passes
validation. -/
lemma validate_none_of_confidence (r : StructuredAgent.AIResponse)
    (h : ¬ (r.confidence_level ≤ 10)) : r.validate = none := by
  unfold StructuredAgent.AIResponse.validate
  rw [if_neg]
  intro hv
  exact h hv.2.2.1

/-- C4: the spec asserts the synthesizer never raises for a well-formed
analysis and returns a confidence in [1,10].  The code always computes
`confidence_level = min(95, 70 + len(content)//20) ≥ 70`, while `AIResponse`
declares `ge=1, le=10`, so pydantic raises a `ValidationError` on every
synthesis call: `_generate_contextual_response` never returns a response. -/
theorem synthesizer_always_raises :
    ∀ (msg : String) (a : LlmAnalyzer.ComprehensiveMessageAnalysis)
      (st : StructuredAgent.SimulationState),
      StructuredAgent.generate_contextual_response msg a st = none := by
  intro msg a st
  unfold StructuredAgent.generate_contextual_response
  exact validate_none_of_confidence _ (confidence_floor _)

/-- C1: the spec asserts `processTurn` fails with `EmptyMessage` exactly on
blank input and otherwise returns a result without raising, even when the
generative capability fails.  Blank input does fail with `EmptyMessage`, but
every non-empty turn raises as well: `process_message` invokes
`analyze_message_comprehensive` with keyword arguments the function does not
accept, so the call raises `TypeError` before any analysis (and even past
that, synthesis always raises, see C4).  No input produces a success. -/
theorem process_turn_never_succeeds :
    (∀ (st : StructuredAgent.SimulationState) (content : String)
      (ctx : Option StructuredAgent.ConversationContext),
      exceptOk (StructuredAgent.processTurn st content ctx) = false) ∧
    StructuredAgent.processTurn demoState "Hola" none =
      Except.error (StructuredAgent.TurnError.analysisFailed
        "analyze_message_comprehensive() got an unexpected keyword argument ai_role") ∧
    StructuredAgent.processTurn demoState "" none =
      Except.error StructuredAgent.TurnError.emptyMessage ∧
    StructuredAgent.processTurn demoState "   " none =
      Except.error StructuredAgent.TurnError.emptyMessage := by
  refine ⟨?_, by decide, by decide, by decide⟩
  intro st content ctx
  simp only [StructuredAgent.processTurn, StructuredAgent.process_message,
    StructuredAgent.analyzeMessageComprehensiveCall]
  split
  · rfl
  · split
    · rfl
    · rfl

/-- Consecutive equality holds along the image of a constant function. -/
lemma chain_eq_of_const {α β : Type} (f : α → β) (c : β) (hf : ∀ a, f a = c) :
    ∀ l : List α, (l.map f).Chain' (fun x y => x = y) := by
  intro l
  induction l with
  | nil => simp
  | cons a t ih =>
    cases t with
    | nil => simp
    | cons b t2 =>
      rw [List.map_cons, List.map_cons, List.chain'_cons]
      exact ⟨(hf a).trans (hf b).symm, by simpa using ih⟩

/-- C10: in the deterministic strategy, objective-progress estimation does not
depend on the objective text: for one message, any two objectives receive the
same completion percentage and completion flag, and all entries of one
analysis carry the same pair. -/
theorem progress_ignores_objective :
    (∀ message o1 o2 : String,
      LlmAnalyzer.calculate_progress_intelligently message o1 =
        LlmAnalyzer.calculate_progress_intelligently message o2 ∧
      LlmAnalyzer.is_objective_completed_intelligently message o1 =
        LlmAnalyzer.is_objective_completed_intelligently message o2) ∧
    (∀ (msg : String) (hist : List String) (ctx : String)
      (objs conds : List String) (pers : List (String × Int)),
      (((LlmAnalyzer.buildStructuredLogic msg hist ctx objs conds
          pers).objective_progress).map
        (fun o => (o.completion_percentage, o.is_fully_completed))).Chain'
          (fun x y => x = y)) := by
  constructor
  · intro m o1 o2; exact ⟨rfl, rfl⟩
  · intro msg hist ctx objs conds pers
    simp only [LlmAnalyzer.buildStructuredLogic, List.map_map]
    exact chain_eq_of_const _
      (LlmAnalyzer.calculate_progress_intelligently msg "",
        LlmAnalyzer.is_objective_completed_intelligently msg "")
      (fun a => rfl) _

/-- The range and enum invariants of the claim, over the embedded analysis
(`completion_percentage` is a `Nat`, so its lower bound 0 holds by type). -/
def AnalysisRangeInvariants (a : LlmAnalyzer.ComprehensiveMessageAnalysis) : Prop :=
  0 ≤ a.emotion_analysis.confidence_score ∧ a.emotion_analysis.confidence_score ≤ 1 ∧
  (∀ o ∈ a.objective_progress, o.completion_percentage ≤ 100) ∧
  (∀ c ∈ a.end_condition_analysis,
    0 ≤ c.likelihood_of_meeting ∧ c.likelihood_of_meeting ≤ 1) ∧
  a.emotion_analysis.primary_emotion ∈ LlmAnalyzer.emotionLiterals ∧
  a.business_impact.impact_level ∈ LlmAnalyzer.impactLiterals ∧
  a.business_impact.financial_impact ∈ LlmAnalyzer.financialImpactLiterals ∧
  a.business_impact.strategic_importance ∈ LlmAnalyzer.impactLiterals ∧
  a.business_impact.urgency_level ∈ LlmAnalyzer.urgencyLiterals

/-- C3: every `ComprehensiveMessageAnalysis` that passes pydantic construction
satisfies the range and enum invariants, and in particular every analysis the
deterministic strategy returns does.  Both strategies only hand out analyses
accepted by `validate`: the generative one parses into the same pydantic model
via `PydanticOutputParser`, the deterministic one constructs it directly. -/
theorem analysis_range_invariants :
    (∀ raw a, LlmAnalyzer.ComprehensiveMessageAnalysis.validate raw = some a →
      AnalysisRangeInvariants a) ∧
    (∀ (msg : String) (hist : List String) (ctx : String) (objs conds : List String)
      (pers : List (String × Int)) (a : LlmAnalyzer.ComprehensiveMessageAnalysis),
      LlmAnalyzer.analyze_with_structured_logic msg hist ctx objs conds pers = some a →
      AnalysisRangeInvariants a) := by
  have main : ∀ raw a, LlmAnalyzer.ComprehensiveMessageAnalysis.validate raw = some a →
      AnalysisRangeInvariants a := by
    intro raw a h
    unfold LlmAnalyzer.ComprehensiveMessageAnalysis.validate at h
    split at h
    · rename_i hv
      cases h
      unfold LlmAnalyzer.ComprehensiveMessageAnalysis.IsValid
        LlmAnalyzer.EmotionAnalysis.IsValid LlmAnalyzer.BusinessImpactAssessment.IsValid
        LlmAnalyzer.ObjectiveProgress.IsValid LlmAnalyzer.EndConditionAnalysis.IsValid at hv
      obtain ⟨⟨he1, he2, he3⟩, ⟨hb1, hb2, hb3, hb4⟩, ho, hc⟩ := hv
      exact ⟨he2, he3, fun o hm => (ho o hm).1, fun c hm => hc c hm,
        he1, hb1, hb2, hb3, hb4⟩
    · exact Option.noConfusion h
  exact ⟨main, fun msg hist ctx objs conds pers a h => main _ a h⟩

/-- Witness for C3: the deterministic analysis of the Scenario B message
passes validation and satisfies every range invariant. -/
theorem analysis_range_invariants_witness :
    AnalysisRangeInvariants
      (LlmAnalyzer.buildStructuredLogic scenarioBMessage [] "" ["Cerrar acuerdo"] []
        demoPersonality) :=
  analysis_range_invariants.2 scenarioBMessage [] "" ["Cerrar acuerdo"] [] demoPersonality
    _ (by decide)

/-- The key of a fold with the Python max step never decreases. -/
lemma key_le_foldl_max (key : String → Nat) :
    ∀ (xs : List String) (x : String),
      key x ≤ key (xs.foldl (fun best y => if key best < key y then y else best) x) := by
  intro xs
  induction xs with
  | nil => intro x; exact le_rfl
  | cons y ys ih =>
    intro x
    rw [List.foldl_cons]
    by_cases h : key x < key y
    · rw [if_pos h]
      exact (le_of_lt h).trans (ih y)
    · rw [if_neg h]
      exact ih x

/-- Extending the scanned list never lowers the key of the Python maximum. -/
lemma pyMaxByKey_key_le_append (key : String → Nat) (x : String) (xs ys : List String) :
    key (ConversationMemory.pyMaxByKey key x xs) ≤
      key (ConversationMemory.pyMaxByKey key x (xs ++ ys)) := by
  unfold ConversationMemory.pyMaxByKey
  rw [List.foldl_append]
  exact key_le_foldl_max key ys _

/-- Recomputing the running maximum over an extended level list never lowers
its priority, whatever the carried current values are. -/
lemma computeHighest_append_le (priority : List (String × Nat)) (cur cur2 : String)
    (l1 l2 : List String) (h : l1 ≠ []) :
    ConversationMemory.priorityGet priority
        (ConversationMemory.computeHighest priority cur l1) ≤
      ConversationMemory.priorityGet priority
        (ConversationMemory.computeHighest priority cur2 (l1 ++ l2)) := by
  cases l1 with
  | nil => exact absurd rfl h
  | cons x xs => exact pyMaxByKey_key_le_append _ x xs l2

/-- The severity fields of an update, in terms of `computeHighest` over the
collected levels. -/
lemma update_insights_severity (ins : ConversationMemory.Insights)
    (ms : List ConversationMemory.MessageRecord) (h : ms ≠ []) :
    (ConversationMemory.update_conversation_insights ins ms).highest_impact_level =
      ConversationMemory.computeHighest ConversationMemory.impact_priority
        ins.highest_impact_level
        ((ms.filter (fun m => m.business_impact_level ≠ "")).map
          (·.business_impact_level)) ∧
    (ConversationMemory.update_conversation_insights ins ms).peak_urgency_level =
      ConversationMemory.computeHighest ConversationMemory.urgency_priority
        ins.peak_urgency_level
        ((ms.filter (fun m => m.urgency_level ≠ "")).map (·.urgency_level)) := by
  unfold ConversationMemory.update_conversation_insights
  rw [if_neg h]
  exact ⟨rfl, rfl⟩

/-- C6: across per-turn memory updates, the recorded highest impact and peak
urgency never move to a strictly lower severity: the recomputation over an
extended stored-message list is at least as severe as over its prefix.  Every
stored user message carries non-blank levels, as `store_message_insights`
guarantees, which the hypotheses reflect. -/
theorem severity_monotone (ins ins2 : ConversationMemory.Insights)
    (ms more : List ConversationMemory.MessageRecord)
    (hne : ms ≠ [])
    (himp : ∀ m ∈ ms, m.business_impact_level ≠ "")
    (hurg : ∀ m ∈ ms, m.urgency_level ≠ "") :
    ConversationMemory.priorityGet ConversationMemory.impact_priority
        (ConversationMemory.update_conversation_insights ins ms).highest_impact_level ≤
      ConversationMemory.priorityGet ConversationMemory.impact_priority
        (ConversationMemory.update_conversation_insights ins2
          (ms ++ more)).highest_impact_level ∧
    ConversationMemory.priorityGet ConversationMemory.urgency_priority
        (ConversationMemory.update_conversation_insights ins ms).peak_urgency_level ≤
      ConversationMemory.priorityGet ConversationMemory.urgency_priority
        (ConversationMemory.update_conversation_insights ins2
          (ms ++ more)).peak_urgency_level := by
  have hms2 : ms ++ more ≠ [] := by
    intro hc
    exact hne (List.append_eq_nil.mp hc).1
  obtain ⟨e1, e2⟩ := update_insights_severity ins ms hne
  obtain ⟨f1, f2⟩ := update_insights_severity ins2 (ms ++ more) hms2
  constructor
  · rw [e1, f1, List.filter_append, List.map_append]
    apply computeHighest_append_le
    cases ms with
    | nil => exact absurd rfl hne
    | cons m rest =>
      have hm : m.business_impact_level ≠ "" := himp m (List.mem_cons_self m rest)
      simp [List.filter_cons, hm]
  · rw [e2, f2, List.filter_append, List.map_append]
    apply computeHighest_append_le
    cases ms with
    | nil => exact absurd rfl hne
    | cons m rest =>
      have hm : m.urgency_level ≠ "" := hurg m (List.mem_cons_self m rest)
      simp [List.filter_cons, hm]

/-- A first-turn message of low severity. -/
def lowSeverityMsg : ConversationMemory.MessageRecord where
  key_points := ["estrategia"]
  financial_mentions := []
  strategic_concepts := ["plan"]
  stakeholders_mentioned := []
  action_items := []
  concerns_raised := []
  business_impact_level := "low"
  urgency_level := "low"
  emotion := "neutral"

/-- A later message of critical severity. -/
def criticalSeverityMsg : ConversationMemory.MessageRecord where
  key_points := ["crisis"]
  financial_mentions := ["$5M"]
  strategic_concepts := []
  stakeholders_mentioned := ["CEO"]
  action_items := ["implementación"]
  concerns_raised := ["preocupación identificada"]
  business_impact_level := "critical"
  urgency_level := "immediate"
  emotion := "frustrated"

/-- Witness for C6 at a concrete two-turn history. -/
theorem severity_monotone_witness :
    ConversationMemory.priorityGet ConversationMemory.impact_priority
        (ConversationMemory.update_conversation_insights ConversationMemory.Insights.initial
          [lowSeverityMsg]).highest_impact_level ≤
      ConversationMemory.priorityGet ConversationMemory.impact_priority
        (ConversationMemory.update_conversation_insights ConversationMemory.Insights.initial
          ([lowSeverityMsg] ++ [criticalSeverityMsg])).highest_impact_level ∧
    ConversationMemory.priorityGet ConversationMemory.urgency_priority
        (ConversationMemory.update_conversation_insights ConversationMemory.Insights.initial
          [lowSeverityMsg]).peak_urgency_level ≤
      ConversationMemory.priorityGet ConversationMemory.urgency_priority
        (ConversationMemory.update_conversation_insights ConversationMemory.Insights.initial
          ([lowSeverityMsg] ++ [criticalSeverityMsg])).peak_urgency_level :=
  severity_monotone ConversationMemory.Insights.initial ConversationMemory.Insights.initial
    [lowSeverityMsg] [criticalSeverityMsg] (by decide) (by decide) (by decide)

/-- Whether consecutive entries strictly ascend: a non-decreasing walk with no
duplicate consecutive entries. -/
def strictlyAscending : List Nat → Bool
  | a :: b :: t => decide (a < b) && strictlyAscending (b :: t)
  | _ => true

/-- The explicit value of the phase history after `n` per-turn updates. -/
def canonicalPhases (n : Nat) : List String :=
  if n = 0 then []
  else if n ≤ 2 then ["opening"]
  else if n ≤ 5 then ["opening", "development"]
  else if n ≤ 8 then ["opening", "development", "negotiation"]
  else ["opening", "development", "negotiation", "closing"]

/-- The iterated phase updates compute exactly the canonical history. -/
lemma phaseHistoryAfter_eq (n : Nat) :
    ConversationMemory.phaseHistoryAfter n = canonicalPhases n := by
  induction n with
  | zero => rfl
  | succ n ih =>
    show ConversationMemory.appendPhase (ConversationMemory.phaseHistoryAfter n) (n + 1) =
      canonicalPhases (n + 1)
    rw [ih]
    rcases Nat.lt_or_ge n 9 with h | h
    · interval_cases n <;> decide
    · have hc : canonicalPhases n = ["opening", "development", "negotiation", "closing"] := by
        unfold canonicalPhases
        rw [if_neg (by omega), if_neg (by omega), if_neg (by omega), if_neg (by omega)]
      have hc2 : canonicalPhases (n + 1) =
          ["opening", "development", "negotiation", "closing"] := by
        unfold canonicalPhases
        rw [if_neg (by omega), if_neg (by omega), if_neg (by omega), if_neg (by omega)]
      have hp : ConversationMemory.phaseOf (n + 1) = "closing" := by
        unfold ConversationMemory.phaseOf
        rw [if_neg (by omega), if_neg (by omega), if_neg (by omega)]
      rw [hc, hc2]
      unfold ConversationMemory.appendPhase
      rw [hp, if_pos (by decide)]

/-- C7: the recorded phase history is a strictly advancing walk through
opening → development → negotiation → closing (hence non-decreasing with no
duplicate consecutive entries), its value is determined by the user-turn count
through the canonical thresholds, and one further turn either leaves the
history unchanged or appends the turn's phase when it differs from the last
recorded label. -/
theorem phase_history_walk :
    (∀ n, strictlyAscending
      ((ConversationMemory.phaseHistoryAfter n).map ConversationMemory.phaseIdx) = true) ∧
    (∀ n, ConversationMemory.phaseHistoryAfter n = canonicalPhases n) ∧
    (∀ n, ConversationMemory.phaseHistoryAfter (n + 1) =
        ConversationMemory.phaseHistoryAfter n ∨
      ((ConversationMemory.phaseHistoryAfter n).getLast? ≠
          some (ConversationMemory.phaseOf (n + 1)) ∧
        ConversationMemory.phaseHistoryAfter (n + 1) =
          ConversationMemory.phaseHistoryAfter n ++
            [ConversationMemory.phaseOf (n + 1)])) := by
  refine ⟨?_, phaseHistoryAfter_eq, ?_⟩
  · intro n
    rw [phaseHistoryAfter_eq]
    unfold canonicalPhases
    split
    · decide
    · split
      · decide
      · split
        · decide
        · split
          · decide
          · decide
  · intro n
    by_cases hmem : ConversationMemory.phaseOf (n + 1) ∈ ConversationMemory.phaseHistoryAfter n
    · left
      show ConversationMemory.appendPhase (ConversationMemory.phaseHistoryAfter n) (n + 1) =
        ConversationMemory.phaseHistoryAfter n
      unfold ConversationMemory.appendPhase
      rw [if_pos hmem]
    · right
      constructor
      · intro hlast
        obtain ⟨hl, hx⟩ := List.mem_getLast?_eq_getLast (Option.mem_def.mpr hlast)
        exact hmem (by rw [hx]; exact List.getLast_mem hl)
      · show ConversationMemory.appendPhase (ConversationMemory.phaseHistoryAfter n) (n + 1) =
          ConversationMemory.phaseHistoryAfter n ++ [ConversationMemory.phaseOf (n + 1)]
        unfold ConversationMemory.appendPhase
        rw [if_neg hmem]

/-- Witness for C7: the third turn appends "development" after "opening". -/
theorem phase_history_walk_witness :
    ConversationMemory.phaseHistoryAfter 3 = canonicalPhases 3 ∧
    strictlyAscending
      ((ConversationMemory.phaseHistoryAfter 2).map ConversationMemory.phaseIdx) = true :=
  ⟨phase_history_walk.2.1 3, phase_history_walk.1 2⟩

/-- The six accumulated list fields of an update, as deduplicated
concatenations over the stored messages. -/
lemma update_insights_lists (ins : ConversationMemory.Insights)
    (ms : List ConversationMemory.MessageRecord) (h : ms ≠ []) :
    (ConversationMemory.update_conversation_insights ins ms).all_key_points =
      (ms.flatMap (·.key_points)).dedup ∧
    (ConversationMemory.update_conversation_insights ins ms).all_financial_mentions =
      (ms.flatMap (·.financial_mentions)).dedup ∧
    (ConversationMemory.update_conversation_insights ins ms).all_strategic_concepts =
      (ms.flatMap (·.strategic_concepts)).dedup ∧
    (ConversationMemory.update_conversation_insights ins ms).all_stakeholders =
      (ms.flatMap (·.stakeholders_mentioned)).dedup ∧
    (ConversationMemory.update_conversation_insights ins ms).all_action_items =
      (ms.flatMap (·.action_items)).dedup ∧
    (ConversationMemory.update_conversation_insights ins ms).all_concerns =
      (ms.flatMap (·.concerns_raised)).dedup := by
  unfold ConversationMemory.update_conversation_insights
  rw [if_neg h]
  exact ⟨rfl, rfl, rfl, rfl, rfl, rfl⟩

/-- Deduplicating after appending only already-present elements changes
neither the element set nor the number of distinct elements. -/
lemma dedup_append_of_subset (l extra : List String) (h : ∀ x ∈ extra, x ∈ l) :
    ((l ++ extra).dedup.toFinset = l.dedup.toFinset) ∧
      (l ++ extra).dedup.length = l.dedup.length := by
  have hset : (l ++ extra).toFinset = l.toFinset := by
    rw [List.toFinset_append]
    apply Finset.union_eq_left.mpr
    intro x hx
    exact List.mem_toFinset.mpr (h x (List.mem_toFinset.mp hx))
  have hdt : ∀ (m : List String), m.dedup.toFinset = m.toFinset := fun m =>
    Finset.ext (fun a => by simp [List.mem_toFinset, List.mem_dedup])
  constructor
  · rw [hdt, hdt, hset]
  · have c1 := List.card_toFinset (l ++ extra)
    have c2 := List.card_toFinset l
    rw [hset] at c1
    omega

/-- One new message whose lists are already covered does not change one
accumulated list field. -/
lemma dedup_extend_covered (ms : List ConversationMemory.MessageRecord)
    (m : ConversationMemory.MessageRecord)
    (f : ConversationMemory.MessageRecord → List String)
    (hf : ∀ x ∈ f m, x ∈ (ms.flatMap f).dedup) :
    (((ms ++ [m]).flatMap f).dedup.toFinset = (ms.flatMap f).dedup.toFinset) ∧
      ((ms ++ [m]).flatMap f).dedup.length = (ms.flatMap f).dedup.length := by
  rw [List.flatMap_append]
  apply dedup_append_of_subset
  intro x hx
  have hx2 : x ∈ f m := by simpa using hx
  exact List.mem_dedup.mp (hf x hx2)

/-- C9: re-applying the memory update with one more stored message whose six
key-point lists are subsets of the already-accumulated deduplicated lists
leaves every accumulated list with the same element set and the same length:
no list grows. -/
theorem dedup_update_idempotent (ins ins2 : ConversationMemory.Insights)
    (ms : List ConversationMemory.MessageRecord) (m : ConversationMemory.MessageRecord)
    (hne : ms ≠ [])
    (h1 : ∀ x ∈ m.key_points,
      x ∈ (ConversationMemory.update_conversation_insights ins ms).all_key_points)
    (h2 : ∀ x ∈ m.financial_mentions,
      x ∈ (ConversationMemory.update_conversation_insights ins ms).all_financial_mentions)
    (h3 : ∀ x ∈ m.strategic_concepts,
      x ∈ (ConversationMemory.update_conversation_insights ins ms).all_strategic_concepts)
    (h4 : ∀ x ∈ m.stakeholders_mentioned,
      x ∈ (ConversationMemory.update_conversation_insights ins ms).all_stakeholders)
    (h5 : ∀ x ∈ m.action_items,
      x ∈ (ConversationMemory.update_conversation_insights ins ms).all_action_items)
    (h6 : ∀ x ∈ m.concerns_raised,
      x ∈ (ConversationMemory.update_conversation_insights ins ms).all_concerns) :
    ((ConversationMemory.update_conversation_insights ins2 (ms ++ [m])).all_key_points.toFinset
        = (ConversationMemory.update_conversation_insights ins ms).all_key_points.toFinset ∧
      (ConversationMemory.update_conversation_insights ins2 (ms ++ [m])).all_key_points.length
        = (ConversationMemory.update_conversation_insights ins ms).all_key_points.length) ∧
    ((ConversationMemory.update_conversation_insights ins2
          (ms ++ [m])).all_financial_mentions.toFinset
        = (ConversationMemory.update_conversation_insights ins
            ms).all_financial_mentions.toFinset ∧
      (ConversationMemory.update_conversation_insights ins2
          (ms ++ [m])).all_financial_mentions.length
        = (ConversationMemory.update_conversation_insights ins
            ms).all_financial_mentions.length) ∧
    ((ConversationMemory.update_conversation_insights ins2
          (ms ++ [m])).all_strategic_concepts.toFinset
        = (ConversationMemory.update_conversation_insights ins
            ms).all_strategic_concepts.toFinset ∧
      (ConversationMemory.update_conversation_insights ins2
          (ms ++ [m])).all_strategic_concepts.length
        = (ConversationMemory.update_conversation_insights ins
            ms).all_strategic_concepts.length) ∧
    ((ConversationMemory.update_conversation_insights ins2 (ms ++ [m])).all_stakeholders.toFinset
        = (ConversationMemory.update_conversation_insights ins ms).all_stakeholders.toFinset ∧
      (ConversationMemory.update_conversation_insights ins2 (ms ++ [m])).all_stakeholders.length
        = (ConversationMemory.update_conversation_insights ins ms).all_stakeholders.length) ∧
    ((ConversationMemory.update_conversation_insights ins2 (ms ++ [m])).all_action_items.toFinset
        = (ConversationMemory.update_conversation_insights ins ms).all_action_items.toFinset ∧
      (ConversationMemory.update_conversation_insights ins2 (ms ++ [m])).all_action_items.length
        = (ConversationMemory.update_conversation_insights ins ms).all_action_items.length) ∧
    ((ConversationMemory.update_conversation_insights ins2 (ms ++ [m])).all_concerns.toFinset
        = (ConversationMemory.update_conversation_insights ins ms).all_concerns.toFinset ∧
      (ConversationMemory.update_conversation_insights ins2 (ms ++ [m])).all_concerns.length
        = (ConversationMemory.update_conversation_insights ins ms).all_concerns.length) := by
  have hms2 : ms ++ [m] ≠ [] := by
    intro hc
    exact hne (List.append_eq_nil.mp hc).1
  obtain ⟨e1, e2, e3, e4, e5, e6⟩ := update_insights_lists ins ms hne
  obtain ⟨f1, f2, f3, f4, f5, f6⟩ := update_insights_lists ins2 (ms ++ [m]) hms2
  rw [e1] at h1
  rw [e2] at h2
  rw [e3] at h3
  rw [e4] at h4
  rw [e5] at h5
  rw [e6] at h6
  rw [e1, e2, e3, e4, e5, e6, f1, f2, f3, f4, f5, f6]
  exact ⟨dedup_extend_covered ms m _ h1, dedup_extend_covered ms m _ h2,
    dedup_extend_covered ms m _ h3, dedup_extend_covered ms m _ h4,
    dedup_extend_covered ms m _ h5, dedup_extend_covered ms m _ h6⟩

/-- A message whose six lists are all subsets of what `lowSeverityMsg` already
contributed. -/
def coveredMsg : ConversationMemory.MessageRecord where
  key_points := ["estrategia"]
  financial_mentions := []
  strategic_concepts := ["plan"]
  stakeholders_mentioned := []
  action_items := []
  concerns_raised := []
  business_impact_level := "medium"
  urgency_level := "medium"
  emotion := "neutral"

/-- Witness for C9: adding a fully covered message to a one-message history
changes no accumulated list. -/
theorem dedup_update_idempotent_witness :
    (ConversationMemory.update_conversation_insights ConversationMemory.Insights.initial
        ([lowSeverityMsg] ++ [coveredMsg])).all_key_points.toFinset
      = (ConversationMemory.update_conversation_insights ConversationMemory.Insights.initial
          [lowSeverityMsg]).all_key_points.toFinset ∧
    (ConversationMemory.update_conversation_insights ConversationMemory.Insights.initial
        ([lowSeverityMsg] ++ [coveredMsg])).all_key_points.length
      = (ConversationMemory.update_conversation_insights ConversationMemory.Insights.initial
          [lowSeverityMsg]).all_key_points.length :=
  (dedup_update_idempotent ConversationMemory.Insights.initial
    ConversationMemory.Insights.initial [lowSeverityMsg] coveredMsg
    (by decide) (by decide) (by decide) (by decide) (by decide) (by decide) (by decide)).1
